import Mathlib

/-!
Verification of the jampy home-studio recording core against its design
specification.

The Python sources are shallowly embedded:

* audio samples are rational numbers (the properties at stake — block
  lengths, clipping bounds, splice arithmetic — do not depend on
  floating-point rounding);
* `str` values that are parsed character by character (the session log
  `details` field) are embedded as `List Char`, with faithful
  re-implementations of the Python string operations the code uses
  (`str.split`, `str.strip`, `str.startswith`, `int(...)`);
* Python code that can raise is embedded with `Option`, `none` standing
  for a raised exception.
-/

namespace Jampy

/-! ## Python string primitives over `List Char`

`_parse_frame` in `src/jampy/processing/splicer.py` uses
`details.split(",")`, `part.strip()`, `part.startswith("frame=")`,
`part.split("=")[1]` and `int(...)`.  The embeddings below implement those
operations on the character list of the string. -/

/-- ASCII whitespace, as stripped by Python's `str.strip()` (the session
logs only ever contain plain spaces). -/
def isSpaceChar (c : Char) : Bool :=
  c = ' ' || c = '\t' || c = '\n' || c = '\r' || c = '\x0b' || c = '\x0c'

/-- Python `s.split(sep)` for a one-character separator: splits on every
occurrence, keeping empty parts (so the result is always non-empty). -/
def splitOnChar (sep : Char) : List Char → List (List Char)
  | [] => [[]]
  | c :: rest =>
    let r := splitOnChar sep rest
    if c = sep then [] :: r
    else
      match r with
      | [] => [[c]]
      | h :: t => (c :: h) :: t

/-- Python `s.strip()`: remove leading and trailing whitespace. -/
def stripChars (s : List Char) : List Char :=
  ((s.dropWhile isSpaceChar).reverse.dropWhile isSpaceChar).reverse

/-- ASCII decimal digit test. -/
def isDigitChar (c : Char) : Bool :=
  decide ('0'.toNat ≤ c.toNat ∧ c.toNat ≤ '9'.toNat)

/-- Numeric value of an ASCII digit. -/
def digitVal (c : Char) : ℕ := c.toNat - '0'.toNat

/-- Parse a non-empty all-digit string to a natural number; `none`
otherwise. -/
def digitsToNat (s : List Char) : Option ℕ :=
  if s ≠ [] ∧ s.all isDigitChar then
    some (s.foldl (fun acc c => acc * 10 + digitVal c) 0)
  else none

/-- Python `int(s)`: surrounding whitespace allowed, optional sign, at
least one digit; `none` models a raised `ValueError`. -/
def intChars (s : List Char) : Option ℤ :=
  match stripChars s with
  | [] => none
  | c :: rest =>
    if c = '-' then (digitsToNat rest).map (fun n => -(n : ℤ))
    else if c = '+' then (digitsToNat rest).map (fun n => (n : ℤ))
    else (digitsToNat (c :: rest)).map (fun n => (n : ℤ))

/-! ## Splicer (`src/jampy/processing/splicer.py`)

`parse_session_log` scans the session events in order, maintaining
`current_start_frame`, the current track fields and a `had_restart` flag,
and collects `CompletedTake`s. -/

/-- One event of the serialized session log, as the splicer reads it from
JSON: `event["event_type"]`, `event.get("track_index", 0)`,
`event.get("track_name", "")`, `event.get("details", "")`.  (The
timestamp fields of the log are never read by the splicer.) -/
structure LogEvent where
  event_type : String
  track_index : ℕ
  track_name : String
  details : String
deriving DecidableEq, Repr

/-- A completed take identified from the session log
(`CompletedTake` dataclass). -/
structure CompletedTake where
  track_index : ℕ
  track_name : String
  start_frame : ℤ
  end_frame : ℤ
deriving DecidableEq, Repr

/-- `_parse_frame(details)`: for each comma-separated part, strip it; the
first part starting with `frame=` is parsed with `int(part.split("=")[1])`;
if no part matches, return `0`.  `none` models `int` raising. -/
def parseFrameParts : List (List Char) → Option ℤ
  | [] => some 0
  | p :: rest =>
    let q := stripChars p
    if "frame=".data.isPrefixOf q then
      intChars ((splitOnChar '=' q).getD 1 [])
    else parseFrameParts rest

/-- `_parse_frame` on the `details` string. -/
def parseFrame (details : String) : Option ℤ :=
  parseFrameParts (splitOnChar ',' details.data)

/-- The loop state of `parse_session_log`: accumulated takes,
`current_start_frame`, `current_track_index`, `current_track_name`,
`had_restart`. -/
structure SpliceScanState where
  completed : List CompletedTake
  current_start_frame : Option ℤ
  current_track_index : ℕ
  current_track_name : String
  had_restart : Bool
deriving DecidableEq, Repr

/-- Initial loop state of `parse_session_log`. -/
def initScanState : SpliceScanState :=
  { completed := [], current_start_frame := none, current_track_index := 0,
    current_track_name := "", had_restart := false }

/-- One iteration of the `for event in events` loop of
`parse_session_log`.  `none` models an exception from `int(...)` inside
`_parse_frame`. -/
def spliceStep (s : SpliceScanState) (e : LogEvent) : Option SpliceScanState :=
  if e.event_type = "record_start" then
    (parseFrame e.details).map fun frame =>
      { s with current_start_frame := some frame,
               current_track_index := e.track_index,
               current_track_name := e.track_name,
               had_restart := false }
  else if e.event_type = "back_to_start" then
    (parseFrame e.details).map fun frame =>
      { s with had_restart := true, current_start_frame := some frame }
  else if e.event_type = "song_end" then
    (parseFrame e.details).map fun frame =>
      { s with
        completed := s.completed ++
          (match s.current_start_frame, s.had_restart with
           | some st, false =>
             [{ track_index := s.current_track_index,
                track_name := s.current_track_name,
                start_frame := st, end_frame := frame }]
           | _, _ => []),
        current_start_frame := none,
        had_restart := false }
  else some s

/-- The event loop of `parse_session_log`, folded over the events. -/
def spliceScan (s : SpliceScanState) : List LogEvent → Option SpliceScanState
  | [] => some s
  | e :: rest =>
    match spliceStep s e with
    | none => none
    | some s2 => spliceScan s2 rest

/-- `parse_session_log`, restricted to the event scan: the list of
completed takes it identifies (the `instrument` field it also returns is
independent of the scan). -/
def parse_session_log (events : List LogEvent) : Option (List CompletedTake) :=
  (spliceScan initScanState events).map (fun s => s.completed)

/-- "A back_to_start event occurred since the most recent record_start":
the most recent event of kind `record_start` or `back_to_start` is a
`back_to_start` (false when neither kind occurs). -/
def hadRestartSpec (evs : List LogEvent) : Bool :=
  match evs.reverse.find?
      (fun e => (e.event_type == "back_to_start") || (e.event_type == "record_start")) with
  | some e => e.event_type == "back_to_start"
  | none => false

/-- The events of the C1 scenario, with the `details` strings exactly as
`Session._log` writes them: `record_start(frame=0)`,
`back_to_start(frame=400)`, `song_end(frame=1200)`. -/
def evC1 : List LogEvent :=
  [ { event_type := "record_start", track_index := 0, track_name := "Song A",
      details := "frame=0" },
    { event_type := "back_to_start", track_index := 0, track_name := "Song A",
      details := "frame=400" },
    { event_type := "song_end", track_index := 0, track_name := "Song A",
      details := "frame=1200, had_restart=True" } ]

/-! ## Mixer (`src/jampy/audio/mixer.py`)

Audio decoding (`read_audio`) and mono-to-stereo duplication are the
external decoding collaborator; sources are embedded at the point where
the decoded stereo sample list is in hand. -/

/-- `MixSource` dataclass: name, stereo samples, volume, active flag. -/
structure MixSource where
  name : String
  data : List (ℚ × ℚ)
  volume : ℚ
  active : Bool
deriving DecidableEq, Repr

/-- `Mixer` state: `sample_rate`, `sources`, `_position`, `_playing`. -/
structure Mixer where
  sample_rate : ℕ
  sources : List MixSource
  position : ℕ
  playing : Bool
deriving DecidableEq, Repr

/-- `Mixer.__init__(sample_rate)`. -/
def Mixer.init (sample_rate : ℕ) : Mixer :=
  { sample_rate := sample_rate, sources := [], position := 0, playing := false }

/-- `Mixer.add_source(name, path, volume=1.0)`: append a new source built
from the decoded stereo data, active by default.  Note: the source code
takes no `trim_frames` parameter (see claim C3). -/
def Mixer.add_source (m : Mixer) (name : String) (data : List (ℚ × ℚ))
    (volume : ℚ) : Mixer :=
  { m with sources := m.sources ++ [{ name := name, data := data,
                                      volume := volume, active := true }] }

/-- Modelled from the spec: `add_source(name, path, volume=1.0,
trim_frames=0)` applying `trim_frames` by dropping that many leading
frames of the decoded source.  This parameter is missing from
`Mixer.add_source` in `src/jampy/audio/mixer.py`, although the callers in
`src/jampy/__main__.py` pass it. -/
def Mixer.add_source_trimmed (m : Mixer) (name : String) (data : List (ℚ × ℚ))
    (volume : ℚ) (trim_frames : ℕ) : Mixer :=
  { m with sources := m.sources ++ [{ name := name, data := data.drop trim_frames,
                                      volume := volume, active := true }] }

/-- `Mixer.clear()`. -/
def Mixer.clear (m : Mixer) : Mixer :=
  { m with sources := [], position := 0 }

/-- `Mixer.duration_frames`: `0` with no sources, else
`max(len(s.data) for s in self.sources if s.active)`; `none` models the
`ValueError` that `max` raises on an empty generator. -/
def Mixer.duration_frames (m : Mixer) : Option ℕ :=
  if m.sources.isEmpty then some 0
  else
    match (m.sources.filter (fun s => s.active)).map (fun s => s.data.length) with
    | [] => none
    | l :: ls => some (ls.foldl Nat.max l)

/-- `Mixer.seek(frame)`: `self._position = max(0, frame)`. -/
def Mixer.seek (m : Mixer) (frame : ℤ) : Mixer :=
  { m with position := (max 0 frame).toNat }

/-- `Mixer.reset()`. -/
def Mixer.reset (m : Mixer) : Mixer :=
  { m with position := 0 }

/-- `Mixer.set_playing(playing)`. -/
def Mixer.set_playing (m : Mixer) (playing : Bool) : Mixer :=
  { m with playing := playing }

/-- `Mixer.is_finished`: `position >= duration_frames and
duration_frames > 0`; `none` propagates the `ValueError` of
`duration_frames`. -/
def Mixer.is_finished (m : Mixer) : Option Bool :=
  m.duration_frames.map (fun d => decide (d ≤ m.position) && decide (0 < d))

/-- `np.clip(x, -1.0, 1.0)` on one sample. -/
def clip (x : ℚ) : ℚ := max (-1) (min 1 x)

/-- `Mixer.read(frames)`: silence when not playing (position unchanged);
otherwise, for each output frame, the volume-scaled sum over the active
sources whose data covers that absolute position, clipped to `[-1, 1]`,
and the position advanced by `frames` unconditionally. -/
def Mixer.read (m : Mixer) (frames : ℕ) : List (ℚ × ℚ) × Mixer :=
  if m.playing = false then (List.replicate frames ((0 : ℚ), (0 : ℚ)), m)
  else
    (((List.range frames).map (fun i =>
        let p := m.position + i
        let sum := m.sources.foldl (fun acc s =>
          if s.active = true ∧ p < s.data.length then
            (acc.1 + (s.data.getD p (0, 0)).1 * s.volume,
             acc.2 + (s.data.getD p (0, 0)).2 * s.volume)
          else acc) ((0 : ℚ), (0 : ℚ))
        (clip sum.1, clip sum.2))),
     { m with position := m.position + frames })

/-- A sequence of `Mixer.read` calls, concatenating the produced blocks. -/
def Mixer.read_seq (m : Mixer) : List ℕ → List (ℚ × ℚ) × Mixer
  | [] => ([], m)
  | n :: ns =>
    let r := m.read n
    let rest := r.2.read_seq ns
    (r.1 ++ rest.1, rest.2)

/-- `Mixer.set_volume(name, volume)`: mutate the first source with the
given name (`break` after the first match). -/
def Mixer.set_volume (m : Mixer) (name : String) (volume : ℚ) : Mixer :=
  { m with sources := go m.sources }
where
  go : List MixSource → List MixSource
    | [] => []
    | s :: rest =>
      if s.name = name then { s with volume := volume } :: rest
      else s :: go rest

/-! ## StreamingRecorder (`src/jampy/audio/recorder.py`)

`Recorder.write` appends a copy of the block to a lock-protected deque on
the audio thread; `_writer_loop` pops one block at a time on the writer
thread and writes it to the sound file; `stop()` clears the running flag,
joins the writer thread, drains whatever is still queued synchronously,
and closes the file.  Because every queue mutation happens under the
lock, each execution is an interleaving of atomic `write` appends and
writer-loop drain iterations; the interleaving is modelled explicitly as
an operation sequence. -/

/-- Recorder state: the queued blocks (`_buffer`), the mono frames
already written to the sound file, `frames_written`, `_running`, and
whether `_file` is open (`_file is not None`). -/
structure RecorderState where
  buffer : List (List ℚ)
  fileData : List ℚ
  frames_written : ℕ
  running : Bool
  fileOpen : Bool
deriving DecidableEq, Repr

/-- `Recorder.start()`: file opened, empty queue, writer thread running. -/
def recorderStart : RecorderState :=
  { buffer := [], fileData := [], frames_written := 0,
    running := true, fileOpen := true }

/-- `Recorder.write(data)`: append a copy of the block to the deque. -/
def RecorderState.write (s : RecorderState) (block : List ℚ) : RecorderState :=
  { s with buffer := s.buffer ++ [block] }

/-- One `_writer_loop` iteration: pop the oldest block under the lock (if
any), then write it to the file when the file is open (a popped block is
dropped when the file is closed, mirroring the `if chunk is not None and
self._file is not None` guard). -/
def RecorderState.drainStep (s : RecorderState) : RecorderState :=
  match s.buffer with
  | [] => s
  | b :: rest =>
    if s.fileOpen then
      { s with buffer := rest, fileData := s.fileData ++ b,
               frames_written := s.frames_written + b.length }
    else { s with buffer := rest }

/-- The synchronous `while self._buffer:` drain loop inside `stop()`,
walking the remaining blocks in queue order. -/
def stopDrainGo : List (List ℚ) → RecorderState → RecorderState
  | [], s => s
  | b :: rest, s =>
    stopDrainGo rest
      (if s.fileOpen then
        { s with fileData := s.fileData ++ b,
                 frames_written := s.frames_written + b.length }
      else s)

/-- `Recorder.stop()`: clear `_running` (which, together with the empty
queue, terminates the writer loop that `join` waits for), drain the
remaining queue synchronously, then close the file. -/
def RecorderState.stop (s : RecorderState) : RecorderState :=
  let s1 := { s with running := false }
  let s2 := stopDrainGo s1.buffer { s1 with buffer := [] }
  { s2 with fileOpen := false }

/-- An atomic step of an execution: a `write` from the audio callback or
a drain iteration of the writer thread. -/
inductive RecOp where
  | write (block : List ℚ)
  | drain
deriving DecidableEq, Repr

/-- Run an interleaving of operations from a recorder state. -/
def runRecOps (s : RecorderState) : List RecOp → RecorderState
  | [] => s
  | RecOp.write b :: rest => runRecOps (s.write b) rest
  | RecOp.drain :: rest => runRecOps s.drainStep rest

/-- The blocks pushed via `write` in an operation sequence, in order. -/
def writtenBlocks : List RecOp → List (List ℚ)
  | [] => []
  | RecOp.write b :: rest => b :: writtenBlocks rest
  | RecOp.drain :: rest => writtenBlocks rest

/-! ## AudioEngine (`src/jampy/audio/engine.py`)

Only the callback is embedded (stream management is the sounddevice
collaborator).  The callback receives the captured input block and the
output buffer (whose prior contents matter when not every channel is
overwritten) and produces the new engine state and the contents of the
output buffer after the callback. -/

/-- The mono capture of the input block: the first channel whether the
block has one column (`indata.copy()`) or several (`indata[:, 0:1]`). -/
def monoChannel (indata : List (List ℚ)) : List ℚ :=
  indata.map (fun row => row.getD 0 0)

/-- Engine state touched by the callback: configuration, the optional
active recorder, the mixer, and the polled `_peak_level`. -/
structure AudioEngine where
  sample_rate : ℕ
  buffer_size : ℕ
  input_channels : ℕ
  output_channels : ℕ
  recorder : Option RecorderState
  mixer : Mixer
  peak_level : ℚ
deriving DecidableEq, Repr

/-- `AudioEngine._callback(indata, outdata, frames, time_info, status)`:
capture mono input, push it to the recorder if active, update the peak
meter, read the next mix block, write it plus the monitor-through input to
the output buffer (both stereo channels when `output_channels == 2`,
otherwise only column 0, the other columns keeping their prior contents),
clip the whole output buffer to `[-1, 1]`, and stop mixer playback when
the playing mixer has finished (the song-end notification itself is
dispatched on a separate thread and is external to this model; a mixer
whose `is_finished` raises would abort the callback). -/
def AudioEngine.callback (e : AudioEngine) (indata outdata : List (List ℚ))
    (frames : ℕ) : AudioEngine × List (List ℚ) :=
  let mono := monoChannel indata
  let rec2 := e.recorder.map (fun r => r.write mono)
  let peak := (mono.map (fun x => |x|)).foldl max 0
  let mr := e.mixer.read frames
  let out2 : List (List ℚ) :=
    if e.output_channels = 2 then
      (List.range frames).map (fun i =>
        [(mr.1.getD i (0, 0)).1 + mono.getD i 0,
         (mr.1.getD i (0, 0)).2 + mono.getD i 0])
    else
      (List.range frames).map (fun i =>
        (List.range e.output_channels).map (fun ch =>
          if ch = 0 then (mr.1.getD i (0, 0)).1 + mono.getD i 0
          else (outdata.getD i []).getD ch 0))
  let outClipped := out2.map (fun row => row.map clip)
  let mixer2 :=
    if mr.2.playing = true then
      match mr.2.is_finished with
      | some true => mr.2.set_playing false
      | _ => mr.2
    else mr.2
  ({ e with recorder := rec2, peak_level := peak, mixer := mixer2 }, outClipped)

/-! ## Session (`src/jampy/session.py`)

The state machine and its event log.  `timestamp_now()` and
`wall_timestamp()` are reads of the environment's clocks, passed in as
the `now`/`wall` arguments; directory creation, log serialization and the
`on_state_change` callback are external side effects outside the
embedded state. -/

/-- `SessionState` enum. -/
inductive SessionState where
  | IDLE
  | WAITING
  | PLAYING
  | BETWEEN_TRACKS
  | ENDED
deriving DecidableEq, Repr

/-- `SessionEvent` dataclass. -/
structure SessionEvent where
  timestamp : ℚ
  wall_time : String
  event_type : String
  track_index : ℕ
  track_name : String
  details : String
deriving DecidableEq, Repr

/-- `Session` state: the instrument, the names of
`project.setlist.tracks` (the only track data the state machine reads),
the state value, `current_track_index`, the event log, `_session_start`,
`_recording_frame_start` and `_had_back_to_start`. -/
structure Session where
  instrument : String
  track_names : List String
  state : SessionState
  current_track_index : ℕ
  events : List SessionEvent
  session_start : ℚ
  recording_frame_start : ℤ
  had_back_to_start : Bool
deriving DecidableEq, Repr

/-- `Session.current_track`'s name as `_log` uses it: `track.name if
track else ""`. -/
def Session.currentTrackName (s : Session) : String :=
  s.track_names.getD s.current_track_index ""

/-- `Session._log(event_type, details)`: append one event carrying
`elapsed` (0 before `start()`), the wall time, and the current track
fields. -/
def Session.log (s : Session) (now : ℚ) (wall : String)
    (etype details : String) : Session :=
  { s with events := s.events ++
      [{ timestamp := if s.session_start = 0 then 0 else now - s.session_start,
         wall_time := wall, event_type := etype,
         track_index := s.current_track_index,
         track_name := s.currentTrackName, details := details }] }

/-- `Session.start()`: only from IDLE; set `_session_start`, reset the
track index, log `session_start`, move to WAITING. -/
def Session.start (s : Session) (now : ℚ) (wall : String) : Session :=
  if s.state ≠ SessionState.IDLE then s
  else
    let s1 := { s with session_start := now, current_track_index := 0 }
    let s2 := s1.log now wall "session_start" ("instrument=" ++ s.instrument)
    { s2 with state := SessionState.WAITING }

/-- `Session.start_recording(recording_frame)`: only from WAITING. -/
def Session.start_recording (s : Session) (recording_frame : ℤ) (now : ℚ)
    (wall : String) : Session :=
  if s.state ≠ SessionState.WAITING then s
  else
    let s1 := { s with recording_frame_start := recording_frame,
                       had_back_to_start := false }
    let s2 := s1.log now wall "record_start"
      ("frame=" ++ toString recording_frame)
    { s2 with state := SessionState.PLAYING }

/-- `Session.back_to_start(recording_frame)`: only from PLAYING; stays in
PLAYING. -/
def Session.back_to_start (s : Session) (recording_frame : ℤ) (now : ℚ)
    (wall : String) : Session :=
  if s.state ≠ SessionState.PLAYING then s
  else
    let s1 := { s with had_back_to_start := true }
    let s2 := s1.log now wall "back_to_start"
      ("frame=" ++ toString recording_frame)
    { s2 with recording_frame_start := recording_frame }

/-- `Session.song_end(recording_frame)`: only from PLAYING; logs the
frame and the `had_restart` flag, moves to BETWEEN_TRACKS. -/
def Session.song_end (s : Session) (recording_frame : ℤ) (now : ℚ)
    (wall : String) : Session :=
  if s.state ≠ SessionState.PLAYING then s
  else
    let s1 := s.log now wall "song_end"
      ("frame=" ++ toString recording_frame ++ ", had_restart=" ++
        (if s.had_back_to_start then "True" else "False"))
    { s1 with state := SessionState.BETWEEN_TRACKS }

/-- `Session.end_session()`: callable from any state; logs `session_end`,
moves to ENDED. -/
def Session.end_session (s : Session) (now : ℚ) (wall : String) : Session :=
  let s1 := s.log now wall "session_end" ""
  { s1 with state := SessionState.ENDED }

/-- `Session.next_track()`: only from BETWEEN_TRACKS; advance the index;
past the last track call `end_session()`, otherwise log `next_track` and
return to WAITING. -/
def Session.next_track (s : Session) (now : ℚ) (wall : String) : Session :=
  if s.state ≠ SessionState.BETWEEN_TRACKS then s
  else
    let s1 := { s with current_track_index := s.current_track_index + 1 }
    if s1.current_track_index ≥ s1.track_names.length then
      s1.end_session now wall
    else
      let s2 := s1.log now wall "next_track" ""
      { s2 with state := SessionState.WAITING }

/-! ### Lemmas about the splice scan -/

theorem spliceScan_append (xs ys : List LogEvent) (s : SpliceScanState) :
    spliceScan s (xs ++ ys) = (spliceScan s xs).bind (fun s2 => spliceScan s2 ys) := by
  induction xs generalizing s with
  | nil => simp [spliceScan]
  | cons x xs ih =>
    simp only [List.cons_append, spliceScan]
    cases h : spliceStep s x with
    | none => simp
    | some s2 => simpa using ih s2

theorem spliceScan_singleton (s : SpliceScanState) (e : LogEvent) :
    spliceScan s [e] = spliceStep s e := by
  cases h : spliceStep s e <;> simp [spliceScan, h]

theorem hadRestartSpec_snoc (evs : List LogEvent) (e : LogEvent) :
    hadRestartSpec (evs ++ [e]) =
      if (e.event_type == "back_to_start") || (e.event_type == "record_start")
      then (e.event_type == "back_to_start")
      else hadRestartSpec evs := by
  unfold hadRestartSpec
  rw [List.reverse_append]
  by_cases hp : ((e.event_type == "back_to_start") || (e.event_type == "record_start")) = true
  · simp [List.find?_cons_of_pos, hp]
  · simp only [Bool.not_eq_true] at hp
    simp [List.find?_cons_of_neg, hp]

/-- Invariant of the scan: whenever `current_start_frame` is set, the
`had_restart` flag agrees with the history predicate "a back_to_start
occurred since the most recent record_start". -/
theorem had_restart_eq_spec (evs : List LogEvent) (s : SpliceScanState)
    (hscan : spliceScan initScanState evs = some s)
    (hset : s.current_start_frame.isSome = true) :
    s.had_restart = hadRestartSpec evs := by
  induction evs using List.reverseRecOn generalizing s with
  | nil =>
    simp [spliceScan] at hscan
    rw [← hscan] at hset
    simp [initScanState] at hset
  | append_singleton evs e ih =>
    rw [spliceScan_append] at hscan
    cases h1 : spliceScan initScanState evs with
    | none => rw [h1] at hscan; simp at hscan
    | some s2 =>
      rw [h1] at hscan
      simp only [Option.some_bind] at hscan
      rw [spliceScan_singleton] at hscan
      rw [hadRestartSpec_snoc]
      unfold spliceStep at hscan
      by_cases hrs : e.event_type = "record_start"
      · rw [if_pos hrs] at hscan
        cases hf : parseFrame e.details with
        | none => rw [hf] at hscan; simp at hscan
        | some f =>
          rw [hf] at hscan
          simp only [Option.map_some'] at hscan
          obtain rfl := Option.some_injective _ hscan
          simp [hrs]
      · rw [if_neg hrs] at hscan
        by_cases hbs : e.event_type = "back_to_start"
        · rw [if_pos hbs] at hscan
          cases hf : parseFrame e.details with
          | none => rw [hf] at hscan; simp at hscan
          | some f =>
            rw [hf] at hscan
            simp only [Option.map_some'] at hscan
            obtain rfl := Option.some_injective _ hscan
            simp [hbs]
        · rw [if_neg hbs] at hscan
          by_cases hse : e.event_type = "song_end"
          · rw [if_pos hse] at hscan
            cases hf : parseFrame e.details with
            | none => rw [hf] at hscan; simp at hscan
            | some f =>
              rw [hf] at hscan
              simp only [Option.map_some'] at hscan
              obtain rfl := Option.some_injective _ hscan
              simp at hset
          · rw [if_neg hse] at hscan
            obtain rfl := Option.some_injective _ hscan
            have hpred :
                ((e.event_type == "back_to_start") || (e.event_type == "record_start")) = false := by
              simp [hbs, hrs]
            rw [if_neg (by simp [hpred])]
            exact ih _ h1 hset

/-! ### Claims C1 and C2 -/

/-- Claim C1, as stated, is false: on the event sequence
`record_start(frame=0)`, `back_to_start(frame=400)`, `song_end(frame=1200)`
the splicer's `parse_session_log` does NOT produce exactly one
`CompletedTake` covering `[400, 1200)` — it produces no take at all. -/
theorem claim_C1_counterexample :
    parse_session_log evC1 = some [] ∧
    some ([] : List CompletedTake) ≠
      some [{ track_index := 0, track_name := "Song A",
              start_frame := 400, end_frame := 1200 }] :=
  ⟨by decide, by decide⟩

/-- Claim C1 amended: the event sequence `record_start(frame=0)`,
`back_to_start(frame=400)`, `song_end(frame=1200)` yields exactly zero
`CompletedTake`s — a `back_to_start` inside a take invalidates the whole
take up to the next `song_end`, so the post-restart segment is discarded
as well. -/
theorem claim_C1_amended : parse_session_log evC1 = some [] := by decide

/-- Claim C2: for every event log whose scan reaches state `s`, processing
a `song_end` event appends exactly one `CompletedTake` (built from the
tracked start frame and the event's frame) iff the start frame is set and
the `had_restart` flag is clear — which, when the start frame is set, is
equivalent to "no back_to_start occurred since the most recent
record_start"; and in all cases the resulting state has the start frame
and the restart flag cleared. -/
theorem claim_C2_song_end (evs : List LogEvent) (s : SpliceScanState)
    (e : LogEvent) (f : ℤ)
    (hscan : spliceScan initScanState evs = some s)
    (he : e.event_type = "song_end")
    (hf : parseFrame e.details = some f) :
    spliceStep s e = some
      { completed := s.completed ++
          (if s.current_start_frame.isSome ∧ s.had_restart = false
           then [{ track_index := s.current_track_index,
                   track_name := s.current_track_name,
                   start_frame := s.current_start_frame.getD 0,
                   end_frame := f }]
           else []),
        current_start_frame := none,
        current_track_index := s.current_track_index,
        current_track_name := s.current_track_name,
        had_restart := false }
    ∧ ((s.current_start_frame.isSome ∧ s.had_restart = false) ↔
        (s.current_start_frame.isSome = true ∧ hadRestartSpec evs = false)) := by
  constructor
  · unfold spliceStep
    rw [if_neg (by rw [he]; decide), if_neg (by rw [he]; decide), if_pos he, hf]
    simp only [Option.map_some', Option.some_inj]
    cases hcs : s.current_start_frame <;> cases hhr : s.had_restart <;>
      simp [hcs, hhr]
  · constructor
    · rintro ⟨hs, hr⟩
      exact ⟨hs, by rw [← had_restart_eq_spec evs s hscan hs]; exact hr⟩
    · rintro ⟨hs, hr⟩
      exact ⟨hs, by rw [had_restart_eq_spec evs s hscan hs]; exact hr⟩

/-- Witness for C2 at a concrete log: after `record_start(frame=0)` the
scan state has the start frame set and the flag clear, and the
`song_end(frame=1000)` event emits exactly the take `[0, 1000)` and clears
both fields. -/
theorem claim_C2_song_end_witness :
    spliceStep
        { completed := [], current_start_frame := some 0,
          current_track_index := 0, current_track_name := "Song A",
          had_restart := false }
        { event_type := "song_end", track_index := 0, track_name := "Song A",
          details := "frame=1000, had_restart=False" } =
      some { completed := [{ track_index := 0, track_name := "Song A",
                             start_frame := 0, end_frame := 1000 }],
             current_start_frame := none, current_track_index := 0,
             current_track_name := "Song A", had_restart := false } := by
  have h := claim_C2_song_end
    [{ event_type := "record_start", track_index := 0, track_name := "Song A",
       details := "frame=0" }]
    { completed := [], current_start_frame := some 0,
      current_track_index := 0, current_track_name := "Song A",
      had_restart := false }
    { event_type := "song_end", track_index := 0, track_name := "Song A",
      details := "frame=1000, had_restart=False" }
    1000 (by decide) rfl (by decide)
  exact h.1.trans (by decide)

/-! ### Mixer lemmas -/

theorem le_foldl_max (l : ℕ) (ls : List ℕ) :
    l ≤ ls.foldl Nat.max l ∧ ∀ a ∈ ls, a ≤ ls.foldl Nat.max l := by
  induction ls generalizing l with
  | nil => simp
  | cons b bs ih =>
    refine ⟨le_trans (Nat.le_max_left l b) (ih (Nat.max l b)).1, ?_⟩
    intro a ha
    rcases List.mem_cons.mp ha with rfl | hmem
    · exact le_trans (Nat.le_max_right l a) (ih (Nat.max l a)).1
    · exact (ih (Nat.max l b)).2 a hmem

theorem read_sources (m : Mixer) (n : ℕ) : (m.read n).2.sources = m.sources := by
  unfold Mixer.read
  split <;> rfl

theorem read_playing (m : Mixer) (n : ℕ) : (m.read n).2.playing = m.playing := by
  unfold Mixer.read
  split <;> rfl

theorem read_length (m : Mixer) (n : ℕ) : (m.read n).1.length = n := by
  unfold Mixer.read
  split <;> simp

theorem read_state_of_playing (m : Mixer) (n : ℕ) (hp : m.playing = true) :
    (m.read n).2 = { m with position := m.position + n } := by
  unfold Mixer.read
  rw [if_neg (by simp [hp])]

theorem duration_frames_position (m : Mixer) (p : ℕ) :
    Mixer.duration_frames { m with position := p } = m.duration_frames := rfl

theorem clip_bounds (x : ℚ) : -1 ≤ clip x ∧ clip x ≤ 1 := by
  unfold clip
  constructor
  · exact le_max_left _ _
  · exact max_le (by norm_num) (min_le_left _ _)

theorem read_seq_state_of_playing (m : Mixer) (ns : List ℕ) (hp : m.playing = true) :
    (m.read_seq ns).2 = { m with position := m.position + ns.sum } := by
  induction ns generalizing m with
  | nil => simp [Mixer.read_seq]
  | cons n ns ih =>
    simp only [Mixer.read_seq]
    rw [read_state_of_playing m n hp]
    rw [ih { m with position := m.position + n } hp]
    simp [Nat.add_assoc]

theorem read_seq_length_of_playing (m : Mixer) (ns : List ℕ) (hp : m.playing = true) :
    (m.read_seq ns).1.length = ns.sum := by
  induction ns generalizing m with
  | nil => simp [Mixer.read_seq]
  | cons n ns ih =>
    simp only [Mixer.read_seq, List.length_append, read_length]
    rw [read_state_of_playing m n hp]
    rw [ih { m with position := m.position + n } hp]
    simp

/-- If an active source belongs to the mixer, `duration_frames` succeeds
and is at least that source's length. -/
theorem duration_some_ge (m : Mixer) (s0 : MixSource) (hmem : s0 ∈ m.sources)
    (hact : s0.active = true) :
    ∃ d, m.duration_frames = some d ∧ s0.data.length ≤ d := by
  unfold Mixer.duration_frames
  have hne : m.sources ≠ [] := by
    intro h
    rw [h] at hmem
    simp at hmem
  rw [if_neg (by simpa [List.isEmpty_iff] using hne)]
  have hmem2 : s0.data.length ∈
      (m.sources.filter (fun s => s.active)).map (fun s => s.data.length) :=
    List.mem_map_of_mem _ (List.mem_filter.mpr ⟨hmem, hact⟩)
  cases hl : (m.sources.filter (fun s => s.active)).map (fun s => s.data.length) with
  | nil => rw [hl] at hmem2; simp at hmem2
  | cons l ls =>
    rw [hl] at hmem2
    refine ⟨ls.foldl Nat.max l, rfl, ?_⟩
    rcases List.mem_cons.mp hmem2 with h | h
    · exact h ▸ (le_foldl_max l ls).1
    · exact (le_foldl_max l ls).2 _ h

/-! ### Claims C3, C6, C7, C10 -/

/-- Claim C3 (code evaluation at the failing behavior): the
`Mixer.add_source` of the source code takes no `trim_frames` argument and
drops no leading frames — reading one frame after loading the 2-frame
source `[(1/2, 0), (1/4, 0)]` yields its untouched first frame `(1/2, 0)`,
whereas the spec-modelled `add_source` with `trim_frames = 1` yields
`(1/4, 0)`. -/
theorem claim_C3_trim_missing :
    ((((Mixer.init 48000).add_source "recording"
        [(1/2, 0), (1/4, 0)] 1).set_playing true).read 1).1
      = [((1 : ℚ)/2, (0 : ℚ))] ∧
    ((((Mixer.init 48000).add_source_trimmed "recording"
        [(1/2, 0), (1/4, 0)] 1 1).set_playing true).read 1).1
      = [((1 : ℚ)/4, (0 : ℚ))] ∧
    [((1 : ℚ)/2, (0 : ℚ))] ≠ [((1 : ℚ)/4, (0 : ℚ))] := by
  refine ⟨?_, ?_, ?_⟩
  · simp [Mixer.init, Mixer.add_source, Mixer.set_playing, Mixer.read, clip,
      List.range_succ]
    norm_num
  · simp [Mixer.init, Mixer.add_source_trimmed, Mixer.set_playing, Mixer.read,
      clip, List.range_succ]
    norm_num
  · norm_num

/-- Claim C6: `is_finished` is false right after
`add_source` + `reset()` + `set_playing(True)` on a non-empty source;
it is true once the total frames read while playing reach
`duration_frames`; once true it stays true under further `read()` calls;
and it is false whenever the mixer has zero sources. -/
theorem claim_C6_is_finished :
    (∀ (m : Mixer) (name : String) (data : List (ℚ × ℚ)) (vol : ℚ),
       data ≠ [] →
       (((m.add_source name data vol).reset).set_playing true).is_finished
         = some false) ∧
    (∀ (m : Mixer) (ns : List ℕ) (d : ℕ),
       m.duration_frames = some d → 0 < d → m.playing = true →
       m.position = 0 → d ≤ ns.sum →
       ((m.read_seq ns).2).is_finished = some true) ∧
    (∀ (m : Mixer) (n : ℕ),
       m.is_finished = some true → ((m.read n).2).is_finished = some true) ∧
    (∀ m : Mixer, m.sources = [] → m.is_finished = some false) := by
  refine ⟨?_, ?_, ?_, ?_⟩
  · intro m name data vol hne
    obtain ⟨d, hd, hge⟩ := duration_some_ge
      (((m.add_source name data vol).reset).set_playing true)
      { name := name, data := data, volume := vol, active := true }
      (by simp [Mixer.add_source, Mixer.reset, Mixer.set_playing])
      rfl
    unfold Mixer.is_finished
    rw [hd]
    have hlen : 0 < data.length := List.length_pos.mpr hne
    have hpos0 : (((m.add_source name data vol).reset).set_playing true).position = 0 :=
      rfl
    simp only [Option.map_some', Option.some_inj, hpos0]
    have hge2 : data.length ≤ d := hge
    have h0 : ¬ (d ≤ 0) := by omega
    simp [h0]
  · intro m ns d hd hdpos hp hpos hsum
    rw [read_seq_state_of_playing m ns hp]
    unfold Mixer.is_finished
    rw [duration_frames_position, hd]
    simp only [Option.map_some', Option.some_inj]
    rw [Bool.and_eq_true, decide_eq_true_eq, decide_eq_true_eq]
    exact ⟨by omega, hdpos⟩
  · intro m n hfin
    unfold Mixer.is_finished at hfin ⊢
    cases hd : m.duration_frames with
    | none => rw [hd] at hfin; simp at hfin
    | some d =>
      rw [hd] at hfin
      simp only [Option.map_some', Option.some_inj, Bool.and_eq_true,
        decide_eq_true_eq] at hfin
      obtain ⟨h1, h2⟩ := hfin
      by_cases hp : m.playing = true
      · rw [read_state_of_playing m n hp, duration_frames_position, hd]
        simp only [Option.map_some', Option.some_inj, Bool.and_eq_true,
          decide_eq_true_eq]
        exact ⟨by omega, h2⟩
      · have hr : m.read n = (List.replicate n ((0 : ℚ), (0 : ℚ)), m) := by
          unfold Mixer.read
          rw [if_pos (by simpa using hp)]
        rw [hr, hd]
        simp [h1, h2]
  · intro m hms
    unfold Mixer.is_finished Mixer.duration_frames
    rw [hms]
    simp

/-- Witness for C6 at concrete mixers: a fresh 1-frame source is not
finished; reading two 1-frame blocks of a 2-frame source finishes it; a
finished mixer stays finished after reading 3 more frames; the empty
mixer is never finished. -/
theorem claim_C6_is_finished_witness :
    ((((Mixer.init 48000).add_source "backing" [(1/2, 0)] 1).reset).set_playing
        true).is_finished = some false ∧
    (((⟨48000, [⟨"backing", [(1/2, 0), (0, 0)], 1, true⟩], 0, true⟩ :
        Mixer).read_seq [1, 1]).2).is_finished = some true ∧
    (((⟨48000, [⟨"backing", [(1/2, 0)], 1, true⟩], 5, true⟩ :
        Mixer).read 3).2).is_finished = some true ∧
    (Mixer.init 48000).is_finished = some false :=
  ⟨claim_C6_is_finished.1 (Mixer.init 48000) "backing" [(1/2, 0)] 1 (by decide),
   claim_C6_is_finished.2.1 _ [1, 1] 2 (by decide) (by decide) rfl rfl (by decide),
   claim_C6_is_finished.2.2.1 _ 3 (by decide),
   claim_C6_is_finished.2.2.2 _ rfl⟩

/-- Claim C7: while playing, `read(n)` returns exactly `n` stereo frames,
every returned sample lies in `[-1, 1]`, and over a sequence of reads the
total frames produced equal the total requested. -/
theorem claim_C7_read_exact (m : Mixer) (n : ℕ) (ns : List ℕ)
    (hp : m.playing = true) :
    (m.read n).1.length = n ∧
    (∀ fr ∈ (m.read n).1, -1 ≤ fr.1 ∧ fr.1 ≤ 1 ∧ -1 ≤ fr.2 ∧ fr.2 ≤ 1) ∧
    (m.read_seq ns).1.length = ns.sum := by
  refine ⟨read_length m n, ?_, read_seq_length_of_playing m ns hp⟩
  intro fr hfr
  unfold Mixer.read at hfr
  rw [if_neg (by simp [hp])] at hfr
  simp only [List.mem_map] at hfr
  obtain ⟨i, -, rfl⟩ := hfr
  exact ⟨(clip_bounds _).1, (clip_bounds _).2, (clip_bounds _).1, (clip_bounds _).2⟩

/-- Witness for C7 at a concrete playing mixer holding a loud 2-frame
source: reading 2 frames yields 2 frames, the first of which is clipped
into `[-1, 1]`, and reads of 1 then 2 frames yield 3 frames in total. -/
theorem claim_C7_read_witness :
    ((⟨48000, [⟨"backing", [(2, -3), (1/2, 1/3)], 1, true⟩], 0, true⟩ :
        Mixer).read 2).1.length = 2 ∧
    ((⟨48000, [⟨"backing", [(2, -3), (1/2, 1/3)], 1, true⟩], 0, true⟩ :
        Mixer).read_seq [1, 2]).1.length = 3 ∧
    -1 ≤ (((⟨48000, [⟨"backing", [(2, -3), (1/2, 1/3)], 1, true⟩], 0, true⟩ :
        Mixer).read 2).1.getD 0 (0, 0)).1 ∧
    (((⟨48000, [⟨"backing", [(2, -3), (1/2, 1/3)], 1, true⟩], 0, true⟩ :
        Mixer).read 2).1.getD 0 (0, 0)).1 ≤ 1 := by
  have h := claim_C7_read_exact
    (⟨48000, [⟨"backing", [(2, -3), (1/2, 1/3)], 1, true⟩], 0, true⟩ : Mixer)
    2 [1, 2] rfl
  have hmem : ((⟨48000, [⟨"backing", [(2, -3), (1/2, 1/3)], 1, true⟩], 0, true⟩ :
      Mixer).read 2).1.getD 0 (0, 0) ∈
      ((⟨48000, [⟨"backing", [(2, -3), (1/2, 1/3)], 1, true⟩], 0, true⟩ :
        Mixer).read 2).1 := by
    rw [List.getD_eq_getElem _ _ (by rw [read_length]; omega)]
    exact List.getElem_mem (by rw [read_length]; omega)
  have hb := h.2.1 _ hmem
  exact ⟨h.1, h.2.2, hb.1, hb.2.1⟩

/-- Claim C10: on a mixer whose source list is non-empty but whose
sources are all inactive, `duration_frames` (and hence `is_finished`)
raises — modelled as `none` — instead of returning a value. -/
theorem claim_C10_inactive_sources (m : Mixer)
    (hne : m.sources ≠ [])
    (hinact : ∀ s ∈ m.sources, s.active = false) :
    m.duration_frames = none ∧ m.is_finished = none := by
  have hfil : m.sources.filter (fun s => s.active) = [] := by
    rw [List.filter_eq_nil_iff]
    intro a ha
    simp [hinact a ha]
  have hdur : m.duration_frames = none := by
    unfold Mixer.duration_frames
    rw [if_neg (by simpa [List.isEmpty_iff] using hne), hfil]
    rfl
  exact ⟨hdur, by unfold Mixer.is_finished; rw [hdur]; rfl⟩

/-- Witness for C10: a mixer holding one deactivated source. -/
theorem claim_C10_inactive_sources_witness :
    (⟨48000, [⟨"backing", [(1/2, 1/2)], 1, false⟩], 0, false⟩ :
        Mixer).duration_frames = none ∧
    (⟨48000, [⟨"backing", [(1/2, 1/2)], 1, false⟩], 0, false⟩ :
        Mixer).is_finished = none :=
  claim_C10_inactive_sources _ (by decide) (by decide)

/-! ### Recorder lemmas and claim C5 -/

theorem stopDrainGo_spec (blocks : List (List ℚ)) (s : RecorderState)
    (hopen : s.fileOpen = true) :
    stopDrainGo blocks s =
      { s with fileData := s.fileData ++ blocks.flatten,
               frames_written := s.frames_written + (blocks.map List.length).sum } := by
  induction blocks generalizing s with
  | nil => simp [stopDrainGo]
  | cons b rest ih =>
    simp only [stopDrainGo, if_pos hopen]
    rw [ih { s with fileData := s.fileData ++ b,
                    frames_written := s.frames_written + b.length } hopen]
    simp [List.append_assoc, Nat.add_assoc]

theorem stop_spec (s : RecorderState) (hopen : s.fileOpen = true) :
    s.stop = { buffer := [], fileData := s.fileData ++ s.buffer.flatten,
               frames_written := s.frames_written + (s.buffer.map List.length).sum,
               running := false, fileOpen := false } := by
  have h : s.stop =
      { stopDrainGo s.buffer { s with buffer := [], running := false } with
        fileOpen := false } := rfl
  rw [h, stopDrainGo_spec s.buffer { s with buffer := [], running := false } hopen]

theorem runRecOps_spec (ops : List RecOp) (s : RecorderState)
    (hopen : s.fileOpen = true)
    (hfr : s.frames_written = s.fileData.length) :
    (runRecOps s ops).fileOpen = true ∧
    (runRecOps s ops).frames_written = (runRecOps s ops).fileData.length ∧
    (runRecOps s ops).fileData ++ (runRecOps s ops).buffer.flatten
      = s.fileData ++ (s.buffer ++ writtenBlocks ops).flatten := by
  induction ops generalizing s with
  | nil => simp [runRecOps, writtenBlocks, hopen, hfr]
  | cons op rest ih =>
    cases op with
    | write b =>
      simp only [runRecOps, writtenBlocks]
      obtain ⟨h1, h2, h3⟩ := ih (s.write b) hopen hfr
      refine ⟨h1, h2, ?_⟩
      rw [h3]
      simp [RecorderState.write, List.append_assoc]
    | drain =>
      simp only [runRecOps, writtenBlocks]
      cases hb : s.buffer with
      | nil =>
        have hstep : s.drainStep = s := by
          simp [RecorderState.drainStep, hb]
        rw [hstep]
        obtain ⟨h1, h2, h3⟩ := ih s hopen hfr
        rw [hb] at h3
        exact ⟨h1, h2, h3⟩
      | cons b bs =>
        have hstep : s.drainStep =
            { s with buffer := bs, fileData := s.fileData ++ b,
                     frames_written := s.frames_written + b.length } := by
          simp [RecorderState.drainStep, hb, hopen]
        rw [hstep]
        obtain ⟨h1, h2, h3⟩ := ih
          { s with buffer := bs, fileData := s.fileData ++ b,
                   frames_written := s.frames_written + b.length }
          hopen (by simp [hfr])
        refine ⟨h1, h2, ?_⟩
        rw [h3]
        simp [hb, List.append_assoc]

/-- Claim C5: for every interleaving of `write` calls with writer-thread
drain iterations followed by `stop()`, the frames in the output file are
exactly the concatenation of the written blocks (no loss, no duplication,
order preserved), `frames_written` equals the total pushed frame count,
and at the end the queue has been drained and the file closed. -/
theorem claim_C5_recorder (ops : List RecOp) :
    ((runRecOps recorderStart ops).stop).fileData
      = (writtenBlocks ops).flatten ∧
    ((runRecOps recorderStart ops).stop).frames_written
      = ((writtenBlocks ops).map List.length).sum ∧
    ((runRecOps recorderStart ops).stop).buffer = [] ∧
    ((runRecOps recorderStart ops).stop).fileOpen = false := by
  obtain ⟨h1, h2, h3⟩ := runRecOps_spec ops recorderStart rfl rfl
  have h3' : (runRecOps recorderStart ops).fileData ++
      (runRecOps recorderStart ops).buffer.flatten = (writtenBlocks ops).flatten := by
    have h4 : (runRecOps recorderStart ops).fileData ++
        (runRecOps recorderStart ops).buffer.flatten
        = ([] : List ℚ) ++ (([] ++ writtenBlocks ops).flatten) := h3
    simpa using h4
  rw [stop_spec _ h1]
  refine ⟨by simpa using h3', ?_, rfl, rfl⟩
  show (runRecOps recorderStart ops).frames_written +
      ((runRecOps recorderStart ops).buffer.map List.length).sum
    = ((writtenBlocks ops).map List.length).sum
  have hlen := congrArg List.length h3'
  simp only [List.length_append, List.length_flatten] at hlen
  omega

/-! ### Session claims C8 and C9 -/

/-- Claim C8: `song_end` called in WAITING is a no-op, and in general
every guarded transition called from a non-matching state returns the
session exactly unchanged (state, event log and all other fields). -/
theorem claim_C8_guarded_noop :
    (∀ (s : Session) (frame : ℤ) (now : ℚ) (wall : String),
       s.state = SessionState.WAITING → s.song_end frame now wall = s) ∧
    (∀ (s : Session) (now : ℚ) (wall : String),
       s.state ≠ SessionState.IDLE → s.start now wall = s) ∧
    (∀ (s : Session) (frame : ℤ) (now : ℚ) (wall : String),
       s.state ≠ SessionState.WAITING → s.start_recording frame now wall = s) ∧
    (∀ (s : Session) (frame : ℤ) (now : ℚ) (wall : String),
       s.state ≠ SessionState.PLAYING → s.back_to_start frame now wall = s) ∧
    (∀ (s : Session) (frame : ℤ) (now : ℚ) (wall : String),
       s.state ≠ SessionState.PLAYING → s.song_end frame now wall = s) ∧
    (∀ (s : Session) (now : ℚ) (wall : String),
       s.state ≠ SessionState.BETWEEN_TRACKS → s.next_track now wall = s) := by
  refine ⟨?_, ?_, ?_, ?_, ?_, ?_⟩
  · intro s frame now wall h
    simp [Session.song_end, h]
  · intro s now wall h
    simp [Session.start, h]
  · intro s frame now wall h
    simp [Session.start_recording, h]
  · intro s frame now wall h
    simp [Session.back_to_start, h]
  · intro s frame now wall h
    simp [Session.song_end, h]
  · intro s now wall h
    simp [Session.next_track, h]

/-- Witness for C8: concrete guarded calls from non-matching states are
no-ops; in particular `song_end` from WAITING. -/
theorem claim_C8_guarded_noop_witness :
    (⟨"guitar", ["Song A", "Song B"], SessionState.WAITING, 0, [], 5, 0, false⟩ :
        Session).song_end 400 6 "t" =
      ⟨"guitar", ["Song A", "Song B"], SessionState.WAITING, 0, [], 5, 0, false⟩ ∧
    (⟨"guitar", ["Song A", "Song B"], SessionState.WAITING, 0, [], 5, 0, false⟩ :
        Session).start 6 "t" =
      ⟨"guitar", ["Song A", "Song B"], SessionState.WAITING, 0, [], 5, 0, false⟩ ∧
    (⟨"guitar", ["Song A", "Song B"], SessionState.IDLE, 0, [], 0, 0, false⟩ :
        Session).start_recording 0 6 "t" =
      ⟨"guitar", ["Song A", "Song B"], SessionState.IDLE, 0, [], 0, 0, false⟩ ∧
    (⟨"guitar", ["Song A", "Song B"], SessionState.WAITING, 0, [], 5, 0, false⟩ :
        Session).back_to_start 400 6 "t" =
      ⟨"guitar", ["Song A", "Song B"], SessionState.WAITING, 0, [], 5, 0, false⟩ ∧
    (⟨"guitar", ["Song A", "Song B"], SessionState.WAITING, 0, [], 5, 0, false⟩ :
        Session).next_track 6 "t" =
      ⟨"guitar", ["Song A", "Song B"], SessionState.WAITING, 0, [], 5, 0, false⟩ :=
  ⟨claim_C8_guarded_noop.1 _ 400 6 "t" rfl,
   claim_C8_guarded_noop.2.1 _ 6 "t" (by decide),
   claim_C8_guarded_noop.2.2.1 _ 0 6 "t" (by decide),
   claim_C8_guarded_noop.2.2.2.1 _ 400 6 "t" (by decide),
   claim_C8_guarded_noop.2.2.2.2.2 _ 6 "t" (by decide)⟩

/-- Claim C9: from BETWEEN_TRACKS, `next_track` on the last track
advances the index, logs a `session_end` event (no `next_track` event)
and moves directly to ENDED; with more tracks remaining it advances the
index, logs `next_track` and returns to WAITING. -/
theorem claim_C9_next_track (s : Session) (now : ℚ) (wall : String)
    (h : s.state = SessionState.BETWEEN_TRACKS) :
    (s.track_names.length ≤ s.current_track_index + 1 →
       s.next_track now wall =
         { s with current_track_index := s.current_track_index + 1,
                  state := SessionState.ENDED,
                  events := s.events ++
                    [{ timestamp := if s.session_start = 0 then 0
                         else now - s.session_start,
                       wall_time := wall, event_type := "session_end",
                       track_index := s.current_track_index + 1,
                       track_name :=
                         s.track_names.getD (s.current_track_index + 1) "",
                       details := "" }] }) ∧
    (s.current_track_index + 1 < s.track_names.length →
       s.next_track now wall =
         { s with current_track_index := s.current_track_index + 1,
                  state := SessionState.WAITING,
                  events := s.events ++
                    [{ timestamp := if s.session_start = 0 then 0
                         else now - s.session_start,
                       wall_time := wall, event_type := "next_track",
                       track_index := s.current_track_index + 1,
                       track_name :=
                         s.track_names.getD (s.current_track_index + 1) "",
                       details := "" }] }) := by
  constructor
  · intro hge
    unfold Session.next_track
    rw [if_neg (by simp [h])]
    rw [if_pos (show s.track_names.length ≤ s.current_track_index + 1 from hge)]
    rfl
  · intro hlt
    unfold Session.next_track
    rw [if_neg (by simp [h])]
    rw [if_neg (show ¬ s.track_names.length ≤ s.current_track_index + 1 by omega)]
    rfl

/-- Witness for C9: on a one-track setlist `next_track` ends the session
with a `session_end` event; on a two-track setlist it advances to the
second track with a `next_track` event. -/
theorem claim_C9_next_track_witness :
    (⟨"guitar", ["Song A"], SessionState.BETWEEN_TRACKS, 0, [], 5, 0, false⟩ :
        Session).next_track 7 "w" =
      ⟨"guitar", ["Song A"], SessionState.ENDED, 1,
        [⟨2, "w", "session_end", 1, "", ""⟩], 5, 0, false⟩ ∧
    (⟨"guitar", ["Song A", "Song B"], SessionState.BETWEEN_TRACKS, 0, [], 5, 0,
        false⟩ : Session).next_track 7 "w" =
      ⟨"guitar", ["Song A", "Song B"], SessionState.WAITING, 1,
        [⟨2, "w", "next_track", 1, "Song B", ""⟩], 5, 0, false⟩ := by
  have h1 := (claim_C9_next_track
    ⟨"guitar", ["Song A"], SessionState.BETWEEN_TRACKS, 0, [], 5, 0, false⟩
    7 "w" rfl).1 (by decide)
  have h2 := (claim_C9_next_track
    ⟨"guitar", ["Song A", "Song B"], SessionState.BETWEEN_TRACKS, 0, [], 5, 0,
      false⟩ 7 "w" rfl).2 (by decide)
  refine ⟨h1.trans ?_, h2.trans ?_⟩
  · norm_num
  · norm_num

/-! ### Engine claims: C4 -/

theorem getD_range_map {α : Type} (g : ℕ → α) (n i : ℕ) (d : α) (hi : i < n) :
    ((List.range n).map g).getD i d = g i := by
  rw [List.getD_eq_getElem _ _ (by simpa using hi)]
  simp

/-- Claim C4, as stated, is false: with 3 configured output channels, a
silent mixer, a zeroed output buffer and monitor input `1/2`, adding the
monitor into every output channel would make channel 1 equal
`clip(0 + 1/2) = 1/2`, but the callback leaves channel 1 at `0` (only
channel 0 receives the mix and the monitor when `output_channels != 2`). -/
theorem claim_C4_counterexample :
    ((((⟨48000, 512, 1, 3, none, Mixer.init 48000, 0⟩ : AudioEngine).callback
        [[1/2]] [[0, 0, 0]] 1).2.getD 0 []).getD 1 0) = 0 ∧
    clip ((0 : ℚ) + 1/2) = 1/2 ∧
    (0 : ℚ) ≠ 1/2 := by
  refine ⟨?_, ?_, by norm_num⟩
  · norm_num [AudioEngine.callback, monoChannel, Mixer.read, Mixer.init, clip,
      List.range_succ]
  · norm_num [clip]

/-- Claim C4 amended: in every audio callback, when the configured output
channel count is 2 every output channel receives the mix plus the mono
monitor signal; when it is not 2, only channel 0 receives the mix plus
the monitor and the remaining channels keep their prior buffer contents;
in all cases every sample of the final output block is clipped to
`[-1, 1]`. -/
theorem claim_C4_output (e : AudioEngine) (indata outdata : List (List ℚ))
    (frames i : ℕ) (hi : i < frames) :
    (e.output_channels = 2 →
       (e.callback indata outdata frames).2.getD i []
         = [clip (((e.mixer.read frames).1.getD i (0, 0)).1 +
              (monoChannel indata).getD i 0),
            clip (((e.mixer.read frames).1.getD i (0, 0)).2 +
              (monoChannel indata).getD i 0)]) ∧
    (e.output_channels ≠ 2 →
       (e.callback indata outdata frames).2.getD i []
         = (List.range e.output_channels).map (fun ch =>
             if ch = 0 then
               clip (((e.mixer.read frames).1.getD i (0, 0)).1 +
                 (monoChannel indata).getD i 0)
             else clip ((outdata.getD i []).getD ch 0))) ∧
    (∀ row ∈ (e.callback indata outdata frames).2, ∀ x ∈ row,
       -1 ≤ x ∧ x ≤ 1) := by
  have hc : (e.callback indata outdata frames).2
      = (if e.output_channels = 2 then
          (List.range frames).map (fun j =>
            [((e.mixer.read frames).1.getD j (0, 0)).1 +
               (monoChannel indata).getD j 0,
             ((e.mixer.read frames).1.getD j (0, 0)).2 +
               (monoChannel indata).getD j 0])
        else
          (List.range frames).map (fun j =>
            (List.range e.output_channels).map (fun ch =>
              if ch = 0 then
                ((e.mixer.read frames).1.getD j (0, 0)).1 +
                  (monoChannel indata).getD j 0
              else (outdata.getD j []).getD ch 0))).map
          (fun row => row.map clip) := rfl
  refine ⟨?_, ?_, ?_⟩
  · intro h2
    rw [hc, if_pos h2, List.map_map]
    rw [getD_range_map _ frames i [] hi]
    simp
  · intro h2
    rw [hc, if_neg h2, List.map_map]
    rw [getD_range_map _ frames i [] hi]
    simp [Function.comp, apply_ite clip]
  · intro row hrow x hx
    rw [hc] at hrow
    rcases List.mem_map.mp hrow with ⟨r0, -, rfl⟩
    rcases List.mem_map.mp hx with ⟨y, -, rfl⟩
    exact ⟨(clip_bounds y).1, (clip_bounds y).2⟩

/-- Witness for C4 amended: with 2 output channels, a silent mixer and
monitor input `1/2`, both channels of the output row are `1/2`; with 1
output channel the single channel is `1/2`; and that sample lies in
`[-1, 1]`. -/
theorem claim_C4_output_witness :
    ((⟨48000, 512, 1, 2, none, Mixer.init 48000, 0⟩ : AudioEngine).callback
        [[1/2]] [[0, 0]] 1).2.getD 0 []
      = [clip ((((Mixer.init 48000).read 1).1.getD 0 (0, 0)).1 +
          (monoChannel [[1/2]]).getD 0 0),
         clip ((((Mixer.init 48000).read 1).1.getD 0 (0, 0)).2 +
          (monoChannel [[1/2]]).getD 0 0)] ∧
    ((⟨48000, 512, 1, 1, none, Mixer.init 48000, 0⟩ : AudioEngine).callback
        [[1/2]] [[0]] 1).2.getD 0 []
      = (List.range 1).map (fun ch =>
          if ch = 0 then
            clip ((((Mixer.init 48000).read 1).1.getD 0 (0, 0)).1 +
              (monoChannel [[1/2]]).getD 0 0)
          else clip (([[(0 : ℚ)]].getD 0 []).getD ch 0)) :=
  ⟨(claim_C4_output
      (⟨48000, 512, 1, 2, none, Mixer.init 48000, 0⟩ : AudioEngine)
      [[1/2]] [[0, 0]] 1 0 (by omega)).1 rfl,
   (claim_C4_output
      (⟨48000, 512, 1, 1, none, Mixer.init 48000, 0⟩ : AudioEngine)
      [[1/2]] [[0]] 1 0 (by omega)).2.1 (by decide)⟩

end Jampy
